import Mathlib

/-!
Verification of `scripts/fetch-authentic-mep-data.py`.

The script calls an external collaborator (the `mep_api` library) to
enumerate MEP URLs, takes the first `min 10 N` of them, fetches each
one's data inside a per-item exception handler, and returns a Python
dictionary.  We embed the collaborator as a record of `Except`-valued
operations (an exception is an `Except.error` carrying the message
string), and the returned dictionary as a structure of optional fields,
one per key the script may put into the dictionary, so that the absence
of a key is representable.
-/

namespace MepWatch

/-- The record handle returned by `mep_api.mep(url)`: each method, when
called, either returns a value or raises (modelled by `Except`).  The
value types of personal data, committees and the JSON serialization are
opaque parameters. -/
structure Mep (P C J : Type) where
  get_personal_data : Except String P
  get_committees : Except String C
  to_json : Except String J

/-- The external `mep_api` collaborator: `get_mep_urls` enumerates the
identifiers, and `mep url` constructs the record handle for one of them.
Each call may raise. -/
structure Collaborator (P C J : Type) where
  get_mep_urls : Except String (List String)
  mep : String → Except String (Mep P C J)

/-- One entry of `meps_data`, built from the source dictionary literal
with keys `url`, `personal_data`, `committees`, `full_json`. -/
structure MepData (P C J : Type) where
  url : String
  personal_data : P
  committees : C
  full_json : J
deriving DecidableEq

/-- The dictionary returned by `fetch_authentic_mep_data`.  The script
returns one of three key sets, so every field is optional; `none` means
the key is absent from the dictionary. -/
structure FetchResult (P C J : Type) where
  total_urls_found : Option Nat
  sample_processed : Option Nat
  sample_data : Option (List (MepData P C J))
  success : Option Bool
  error : Option String
deriving DecidableEq

/-- The body of the per-item `try` block: construct the handle, extract
personal data, committees and the JSON form, and build the entry.  The
first raising call aborts the item with its message, exactly as the
exception would. -/
def processOne {P C J : Type} (c : Collaborator P C J) (url : String) :
    Except String (MepData P C J) :=
  match c.mep url with
  | .error e => .error e
  | .ok m =>
    match m.get_personal_data with
    | .error e => .error e
    | .ok personal_data =>
      match m.get_committees with
      | .error e => .error e
      | .ok committees =>
        match m.to_json with
        | .error e => .error e
        | .ok mep_json => .ok ⟨url, personal_data, committees, mep_json⟩

/-- The `for i, url in enumerate(sample_urls)` loop: append the entry on
success, `continue` on a caught exception. -/
def fetchLoop {P C J : Type} (c : Collaborator P C J) :
    List String → List (MepData P C J)
  | [] => []
  | url :: rest =>
    match processOne c url with
    | .ok d => d :: fetchLoop c rest
    | .error _ => fetchLoop c rest

/-- `fetch_authentic_mep_data` from the script.  The outer `try/except`
catches only a raising `get_mep_urls` (the loop body's exceptions are
caught by the inner handler), yielding `{"error": str(e), "success":
False}`.  An empty enumeration yields `{"error": "No MEP URLs found"}`
with no other key.  Otherwise the first `min 10 N` URLs are processed
and the four-key success dictionary is returned. -/
def fetch_authentic_mep_data {P C J : Type} (c : Collaborator P C J) :
    FetchResult P C J :=
  match c.get_mep_urls with
  | .error e => ⟨none, none, none, some false, some e⟩
  | .ok mep_urls =>
    if mep_urls.length = 0 then
      ⟨none, none, none, none, some "No MEP URLs found"⟩
    else
      let sample_size := min 10 mep_urls.length
      let sample_urls := mep_urls.take sample_size
      let meps_data := fetchLoop c sample_urls
      ⟨some mep_urls.length, some meps_data.length, some meps_data,
        some true, none⟩

/-! ### Helper lemmas -/

/-- A successful per-item fetch records exactly the identifier it was
given together with the three extracted pieces of the handle the
collaborator returned for it. -/
theorem processOne_ok {P C J : Type} {c : Collaborator P C J} {u : String}
    {d : MepData P C J} (h : processOne c u = .ok d) :
    d.url = u ∧ ∃ m, c.mep u = .ok m ∧
      m.get_personal_data = .ok d.personal_data ∧
      m.get_committees = .ok d.committees ∧
      m.to_json = .ok d.full_json := by
  cases hm : c.mep u with
  | error e => simp [processOne, hm] at h
  | ok m =>
    cases hpd : m.get_personal_data with
    | error e => simp [processOne, hm, hpd] at h
    | ok pd =>
      cases hcm : m.get_committees with
      | error e => simp [processOne, hm, hpd, hcm] at h
      | ok cm =>
        cases hjs : m.to_json with
        | error e => simp [processOne, hm, hpd, hcm, hjs] at h
        | ok js =>
          simp only [processOne, hm, hpd, hcm, hjs] at h
          cases h
          exact ⟨rfl, m, rfl, hpd, hcm, hjs⟩

/-- The accumulation loop keeps, in order, exactly the successful
per-item fetches. -/
theorem fetchLoop_eq_filterMap {P C J : Type} (c : Collaborator P C J)
    (l : List String) :
    fetchLoop c l = l.filterMap (fun u => (processOne c u).toOption) := by
  induction l with
  | nil => rfl
  | cons u rest ih =>
    unfold fetchLoop
    cases h : processOne c u with
    | error e => simp [h, Except.toOption, ih]
    | ok d => simp [h, Except.toOption, ih]

/-- The loop never yields more entries than it was given identifiers. -/
theorem fetchLoop_length_le {P C J : Type} (c : Collaborator P C J)
    (l : List String) : (fetchLoop c l).length ≤ l.length := by
  induction l with
  | nil => simp [fetchLoop]
  | cons u rest ih =>
    unfold fetchLoop
    cases h : processOne c u with
    | error e => exact le_trans ih (by simp)
    | ok d => simpa using ih

/-- Every accumulated entry comes from a successful fetch of one of the
identifiers handed to the loop. -/
theorem fetchLoop_mem {P C J : Type} {c : Collaborator P C J}
    {l : List String} {d : MepData P C J} (h : d ∈ fetchLoop c l) :
    ∃ u ∈ l, processOne c u = .ok d := by
  rw [fetchLoop_eq_filterMap] at h
  rw [List.mem_filterMap] at h
  obtain ⟨u, hu, hd⟩ := h
  refine ⟨u, hu, ?_⟩
  cases hp : processOne c u with
  | error e => rw [hp] at hd; exact absurd hd (by simp [Except.toOption])
  | ok a =>
    rw [hp] at hd
    simp [Except.toOption] at hd
    rw [hd]

/-- The identifiers of the accumulated entries form a sublist (same
relative order, omissions only) of the identifiers handed to the loop. -/
theorem fetchLoop_map_url_sublist {P C J : Type} (c : Collaborator P C J)
    (l : List String) :
    List.Sublist ((fetchLoop c l).map MepData.url) l := by
  induction l with
  | nil => simp [fetchLoop]
  | cons u rest ih =>
    unfold fetchLoop
    cases h : processOne c u with
    | error e => exact List.Sublist.cons u ih
    | ok d =>
      have hu : d.url = u := (processOne_ok h).1
      simpa [hu] using List.Sublist.cons₂ u ih

/-- If every identifier handed to the loop fails, the loop accumulates
nothing. -/
theorem fetchLoop_eq_nil_of_all_fail {P C J : Type} (c : Collaborator P C J)
    (l : List String) (h : ∀ u ∈ l, ∃ e, processOne c u = .error e) :
    fetchLoop c l = [] := by
  induction l with
  | nil => rfl
  | cons u rest ih =>
    obtain ⟨e, he⟩ := h u (by simp)
    unfold fetchLoop
    rw [he]
    exact ih (fun v hv => h v (by simp [hv]))

/-- The per-item step only looks at the collaborator through `mep`. -/
theorem processOne_congr {P C J : Type} (c1 c2 : Collaborator P C J)
    (hmep : ∀ u, c1.mep u = c2.mep u) (u : String) :
    processOne c1 u = processOne c2 u := by
  unfold processOne
  rw [hmep]

/-- The loop only looks at the collaborator through `mep`. -/
theorem fetchLoop_congr {P C J : Type} (c1 c2 : Collaborator P C J)
    (hmep : ∀ u, c1.mep u = c2.mep u) (l : List String) :
    fetchLoop c1 l = fetchLoop c2 l := by
  induction l with
  | nil => rfl
  | cons u rest ih =>
    unfold fetchLoop
    rw [processOne_congr c1 c2 hmep u, ih]

/-- Normal form of the result when enumeration succeeds with a non-empty
identifier list. -/
theorem fetch_ok_nonempty {P C J : Type} (c : Collaborator P C J)
    (urls : List String) (henum : c.get_mep_urls = .ok urls)
    (hne : urls ≠ []) :
    fetch_authentic_mep_data c =
      ⟨some urls.length,
       some (fetchLoop c (urls.take (min 10 urls.length))).length,
       some (fetchLoop c (urls.take (min 10 urls.length))),
       some true, none⟩ := by
  unfold fetch_authentic_mep_data
  rw [henum]
  simp [List.length_eq_zero, hne]

/-- `success` can only be `False` when the enumeration call raised. -/
theorem success_false_imp_enum_error {P C J : Type} (c : Collaborator P C J)
    (h : (fetch_authentic_mep_data c).success = some false) :
    ∃ e, c.get_mep_urls = .error e := by
  unfold fetch_authentic_mep_data at h
  cases he : c.get_mep_urls with
  | error e => exact ⟨e, rfl⟩
  | ok urls =>
    rw [he] at h
    by_cases h0 : urls.length = 0 <;> simp [h0] at h

/-! ### Concrete collaborators used to instantiate the theorems -/

/-- A record handle all of whose extraction calls succeed. -/
def okMep : Mep Unit Unit Unit := ⟨.ok (), .ok (), .ok ()⟩

/-- Enumeration finds three identifiers; every per-item call succeeds. -/
def wcAllOk : Collaborator Unit Unit Unit :=
  ⟨.ok ["a", "b", "c"], fun _ => .ok okMep⟩

/-- Enumeration succeeds but finds no identifiers. -/
def emptyCollab : Collaborator Unit Unit Unit :=
  ⟨.ok [], fun _ => .error "unused"⟩

/-- Enumeration finds two identifiers; every per-item call raises. -/
def wcAllFail : Collaborator Unit Unit Unit :=
  ⟨.ok ["a", "b"], fun _ => .error "down"⟩

/-- The enumeration call itself raises. -/
def wcEnumFail : Collaborator Unit Unit Unit :=
  ⟨.error "timeout", fun _ => .error "unused"⟩

/-! ### Claim theorems -/

/-- C1: whenever enumeration succeeds with a non-empty list of `N`
identifiers, the result's `sample_processed` equals the length of its
`sample_data` list, and that length is at most `min 10 N`. -/
theorem sample_invariant {P C J : Type} (c : Collaborator P C J)
    (urls : List String) (henum : c.get_mep_urls = .ok urls)
    (hne : urls ≠ []) :
    ∃ meps, (fetch_authentic_mep_data c).sample_data = some meps ∧
      (fetch_authentic_mep_data c).sample_processed = some meps.length ∧
      meps.length ≤ min 10 urls.length := by
  refine ⟨fetchLoop c (urls.take (min 10 urls.length)), ?_, ?_, ?_⟩
  · rw [fetch_ok_nonempty c urls henum hne]
  · rw [fetch_ok_nonempty c urls henum hne]
  · have h := fetchLoop_length_le c (urls.take (min 10 urls.length))
    rw [List.length_take] at h
    omega

/-- Witness for C1 at a concrete collaborator with three identifiers. -/
theorem sample_invariant_witness :
    ∃ meps, (fetch_authentic_mep_data wcAllOk).sample_data = some meps ∧
      (fetch_authentic_mep_data wcAllOk).sample_processed =
        some meps.length ∧
      meps.length ≤ min 10 (List.length ["a", "b", "c"]) :=
  sample_invariant wcAllOk ["a", "b", "c"] rfl (by simp)

/-- C2 counterexample: on an empty enumeration the code returns the
dictionary `{"error": "No MEP URLs found"}`, which has no `success` key
at all, so the result's `success` field is not `False` as claimed. -/
theorem empty_enum_no_success_key :
    (fetch_authentic_mep_data emptyCollab).success = none ∧
    (fetch_authentic_mep_data emptyCollab).success ≠ some false :=
  ⟨rfl, by decide⟩

/-- C2 (amended): if enumeration returns an empty collection, the run
terminates immediately with no per-item processing and returns exactly
the dictionary whose only key is the non-empty message
`"No MEP URLs found"`: no `sample_data` key and also no `success` key
(so `success` is absent rather than `False`). -/
theorem empty_enum_result {P C J : Type} (c : Collaborator P C J)
    (henum : c.get_mep_urls = .ok []) :
    fetch_authentic_mep_data c =
      ⟨none, none, none, none, some "No MEP URLs found"⟩ := by
  unfold fetch_authentic_mep_data
  rw [henum]
  rfl

/-- Witness for the amended C2 at a concrete collaborator. -/
theorem empty_enum_result_witness :
    fetch_authentic_mep_data emptyCollab =
      ⟨none, none, none, none, some "No MEP URLs found"⟩ :=
  empty_enum_result emptyCollab rfl

/-- C3: if enumeration succeeds with a non-empty list but every selected
identifier's per-item fetch raises, the result still has `success =
True`, `sample_processed = 0` and an empty `sample_data`; moreover for
any collaborator whatsoever `success = False` forces the enumeration
call itself to have raised. -/
theorem all_items_fail {P C J : Type} (c : Collaborator P C J)
    (urls : List String) (henum : c.get_mep_urls = .ok urls)
    (hne : urls ≠ [])
    (hfail : ∀ u ∈ urls.take (min 10 urls.length),
      ∃ e, processOne c u = .error e) :
    (fetch_authentic_mep_data c).success = some true ∧
    (fetch_authentic_mep_data c).sample_processed = some 0 ∧
    (fetch_authentic_mep_data c).sample_data = some [] ∧
    ∀ (c2 : Collaborator P C J),
      (fetch_authentic_mep_data c2).success = some false →
      ∃ e, c2.get_mep_urls = .error e := by
  have hnil := fetchLoop_eq_nil_of_all_fail c _ hfail
  rw [fetch_ok_nonempty c urls henum hne]
  refine ⟨rfl, ?_, ?_, ?_⟩
  · simp [hnil]
  · simp [hnil]
  · exact fun c2 hs => success_false_imp_enum_error c2 hs

/-- Witness for C3 at a concrete collaborator whose per-item calls all
raise. -/
theorem all_items_fail_witness :
    (fetch_authentic_mep_data wcAllFail).success = some true ∧
    (fetch_authentic_mep_data wcAllFail).sample_processed = some 0 ∧
    (fetch_authentic_mep_data wcAllFail).sample_data = some [] ∧
    ∀ (c2 : Collaborator Unit Unit Unit),
      (fetch_authentic_mep_data c2).success = some false →
      ∃ e, c2.get_mep_urls = .error e :=
  all_items_fail wcAllFail ["a", "b"] rfl (by simp)
    (fun u _ => ⟨"down", rfl⟩)

/-- C4: if the enumeration call raises with message `e`, the run returns
exactly the dictionary with `success = False` and `error = e`, and no
`total_urls_found`, `sample_processed` or `sample_data` key. -/
theorem enum_raises {P C J : Type} (c : Collaborator P C J) (e : String)
    (henum : c.get_mep_urls = .error e) :
    fetch_authentic_mep_data c = ⟨none, none, none, some false, some e⟩ := by
  unfold fetch_authentic_mep_data
  rw [henum]

/-- Witness for C4 at a concrete collaborator whose enumeration raises a
timeout. -/
theorem enum_raises_witness :
    fetch_authentic_mep_data wcEnumFail =
      ⟨none, none, none, some false, some "timeout"⟩ :=
  enum_raises wcEnumFail "timeout" rfl

/-- C5: for a non-empty enumeration the identifiers handed to the
per-item loop are exactly a prefix of the enumerated list whose length
is `min 10 N` — the first `min 10 N` identifiers in enumeration order,
with no reordering. -/
theorem sample_is_prefix {P C J : Type} (c : Collaborator P C J)
    (urls : List String) (henum : c.get_mep_urls = .ok urls)
    (hne : urls ≠ []) :
    ∃ sample, sample ++ urls.drop (min 10 urls.length) = urls ∧
      sample.length = min 10 urls.length ∧
      (fetch_authentic_mep_data c).sample_data =
        some (fetchLoop c sample) := by
  refine ⟨urls.take (min 10 urls.length), List.take_append_drop _ _, ?_, ?_⟩
  · rw [List.length_take]
    omega
  · rw [fetch_ok_nonempty c urls henum hne]

/-- Witness for C5 at a concrete collaborator with three identifiers. -/
theorem sample_is_prefix_witness :
    ∃ sample,
      sample ++ List.drop (min 10 (List.length ["a", "b", "c"]))
        ["a", "b", "c"] = ["a", "b", "c"] ∧
      sample.length = min 10 (List.length ["a", "b", "c"]) ∧
      (fetch_authentic_mep_data wcAllOk).sample_data =
        some (fetchLoop wcAllOk sample) :=
  sample_is_prefix wcAllOk ["a", "b", "c"] rfl (by simp)

/-- C6: for a non-empty enumeration, `sample_data` is exactly the list
of successful fetches of the selected prefix in that prefix's order
(failures omitted, nothing substituted), and consequently the recorded
identifiers form a sublist of the selected prefix. -/
theorem sample_data_order {P C J : Type} (c : Collaborator P C J)
    (urls : List String) (henum : c.get_mep_urls = .ok urls)
    (hne : urls ≠ []) :
    ∃ meps, (fetch_authentic_mep_data c).sample_data = some meps ∧
      meps = (urls.take (min 10 urls.length)).filterMap
        (fun u => (processOne c u).toOption) ∧
      List.Sublist (meps.map MepData.url)
        (urls.take (min 10 urls.length)) := by
  refine ⟨fetchLoop c (urls.take (min 10 urls.length)), ?_, ?_, ?_⟩
  · rw [fetch_ok_nonempty c urls henum hne]
  · exact fetchLoop_eq_filterMap c _
  · exact fetchLoop_map_url_sublist c _

/-- Witness for C6 at a concrete collaborator with three identifiers. -/
theorem sample_data_order_witness :
    ∃ meps, (fetch_authentic_mep_data wcAllOk).sample_data = some meps ∧
      meps = (List.take (min 10 (List.length ["a", "b", "c"]))
        ["a", "b", "c"]).filterMap
          (fun u => (processOne wcAllOk u).toOption) ∧
      List.Sublist (meps.map MepData.url)
        (List.take (min 10 (List.length ["a", "b", "c"]))
          ["a", "b", "c"]) :=
  sample_data_order wcAllOk ["a", "b", "c"] rfl (by simp)

/-- C7: with 15 enumerated identifiers, where the fourth selected
identifier's fetch raises and the other nine selected fetches succeed,
the result has `sample_processed = 9` and `sample_data` holds the nine
records in order, missing exactly the fourth. -/
theorem scenario_fourth_fails {P C J : Type} (c : Collaborator P C J)
    (u0 u1 u2 u3 u4 u5 u6 u7 u8 u9 v0 v1 v2 v3 v4 : String)
    (d0 d1 d2 d4 d5 d6 d7 d8 d9 : MepData P C J) (e : String)
    (henum : c.get_mep_urls =
      .ok [u0, u1, u2, u3, u4, u5, u6, u7, u8, u9, v0, v1, v2, v3, v4])
    (h0 : processOne c u0 = .ok d0) (h1 : processOne c u1 = .ok d1)
    (h2 : processOne c u2 = .ok d2) (h3 : processOne c u3 = .error e)
    (h4 : processOne c u4 = .ok d4) (h5 : processOne c u5 = .ok d5)
    (h6 : processOne c u6 = .ok d6) (h7 : processOne c u7 = .ok d7)
    (h8 : processOne c u8 = .ok d8) (h9 : processOne c u9 = .ok d9) :
    (fetch_authentic_mep_data c).sample_processed = some 9 ∧
    (fetch_authentic_mep_data c).sample_data =
      some [d0, d1, d2, d4, d5, d6, d7, d8, d9] := by
  rw [fetch_ok_nonempty c _ henum (by simp)]
  have hsample :
      List.take
        (min 10 (List.length
          [u0, u1, u2, u3, u4, u5, u6, u7, u8, u9, v0, v1, v2, v3, v4]))
        [u0, u1, u2, u3, u4, u5, u6, u7, u8, u9, v0, v1, v2, v3, v4] =
      [u0, u1, u2, u3, u4, u5, u6, u7, u8, u9] := rfl
  rw [hsample]
  simp [fetchLoop, h0, h1, h2, h3, h4, h5, h6, h7, h8, h9]

/-- Enumeration finds fifteen identifiers; the fetch of the fourth one
raises and every other fetch succeeds. -/
def wcFourthFails : Collaborator Unit Unit Unit :=
  ⟨.ok ["u00", "u01", "u02", "u03", "u04", "u05", "u06", "u07", "u08",
        "u09", "u10", "u11", "u12", "u13", "u14"],
   fun u => if u = "u03" then .error "boom" else .ok okMep⟩

/-- Witness for C7 at a concrete fifteen-identifier collaborator whose
fourth fetch raises. -/
theorem scenario_fourth_fails_witness :
    (fetch_authentic_mep_data wcFourthFails).sample_processed = some 9 ∧
    (fetch_authentic_mep_data wcFourthFails).sample_data =
      some [⟨"u00", (), (), ()⟩, ⟨"u01", (), (), ()⟩, ⟨"u02", (), (), ()⟩,
            ⟨"u04", (), (), ()⟩, ⟨"u05", (), (), ()⟩, ⟨"u06", (), (), ()⟩,
            ⟨"u07", (), (), ()⟩, ⟨"u08", (), (), ()⟩,
            ⟨"u09", (), (), ()⟩] :=
  scenario_fourth_fails wcFourthFails
    "u00" "u01" "u02" "u03" "u04" "u05" "u06" "u07" "u08" "u09"
    "u10" "u11" "u12" "u13" "u14"
    ⟨"u00", (), (), ()⟩ ⟨"u01", (), (), ()⟩ ⟨"u02", (), (), ()⟩
    ⟨"u04", (), (), ()⟩ ⟨"u05", (), (), ()⟩ ⟨"u06", (), (), ()⟩
    ⟨"u07", (), (), ()⟩ ⟨"u08", (), (), ()⟩ ⟨"u09", (), (), ()⟩
    "boom" rfl rfl rfl rfl rfl rfl rfl rfl rfl rfl rfl

/-- C8: on every successful run (enumeration succeeded, non-empty) the
result dictionary carries the total count, the processed count, the
sample list and the success flag, and every entry of the sample list
carries its identifier together with the personal data, committees and
full serialization extracted from the handle the collaborator returned
for that identifier.  (The source spells these keys `total_urls_found`,
`url` and `full_json`; the specification's data model names them
`total_identifiers_found`, `identifier` and `raw_serialization`.) -/
theorem result_and_record_fields {P C J : Type} (c : Collaborator P C J)
    (urls : List String) (henum : c.get_mep_urls = .ok urls)
    (hne : urls ≠ []) :
    (fetch_authentic_mep_data c).total_urls_found = some urls.length ∧
    (fetch_authentic_mep_data c).success = some true ∧
    ∃ meps, (fetch_authentic_mep_data c).sample_data = some meps ∧
      (fetch_authentic_mep_data c).sample_processed = some meps.length ∧
      ∀ d ∈ meps, ∃ m, c.mep d.url = .ok m ∧
        m.get_personal_data = .ok d.personal_data ∧
        m.get_committees = .ok d.committees ∧
        m.to_json = .ok d.full_json := by
  rw [fetch_ok_nonempty c urls henum hne]
  refine ⟨rfl, rfl, fetchLoop c (urls.take (min 10 urls.length)),
    rfl, rfl, ?_⟩
  intro d hd
  obtain ⟨u, _, hp⟩ := fetchLoop_mem hd
  obtain ⟨hurl, m, hm, hpd, hcm, hjs⟩ := processOne_ok hp
  rw [hurl]
  exact ⟨m, hm, hpd, hcm, hjs⟩

/-- Witness for C8 at a concrete collaborator with three identifiers. -/
theorem result_and_record_fields_witness :
    (fetch_authentic_mep_data wcAllOk).total_urls_found =
      some (List.length ["a", "b", "c"]) ∧
    (fetch_authentic_mep_data wcAllOk).success = some true ∧
    ∃ meps, (fetch_authentic_mep_data wcAllOk).sample_data = some meps ∧
      (fetch_authentic_mep_data wcAllOk).sample_processed =
        some meps.length ∧
      ∀ d ∈ meps, ∃ m, wcAllOk.mep d.url = .ok m ∧
        m.get_personal_data = .ok d.personal_data ∧
        m.get_committees = .ok d.committees ∧
        m.to_json = .ok d.full_json :=
  result_and_record_fields wcAllOk ["a", "b", "c"] rfl (by simp)

/-- C9: whatever the collaborator does — each of its operations may
raise — the orchestrator terminates normally and returns one of the
three dictionary shapes the source can build; no exception escapes. -/
theorem fetch_never_raises {P C J : Type} (c : Collaborator P C J) :
    (∃ e, fetch_authentic_mep_data c =
      ⟨none, none, none, some false, some e⟩) ∨
    fetch_authentic_mep_data c =
      ⟨none, none, none, none, some "No MEP URLs found"⟩ ∨
    ∃ n meps, fetch_authentic_mep_data c =
      ⟨some n, some (List.length meps), some meps, some true, none⟩ := by
  cases he : c.get_mep_urls with
  | error e =>
    exact Or.inl ⟨e, enum_raises c e he⟩
  | ok urls =>
    by_cases h0 : urls = []
    · exact Or.inr (Or.inl (empty_enum_result c (h0 ▸ he)))
    · exact Or.inr (Or.inr ⟨urls.length,
        fetchLoop c (urls.take (min 10 urls.length)),
        fetch_ok_nonempty c urls he h0⟩)

/-- C10: the run is a function of the collaborator's responses: two
collaborators that answer enumeration identically and answer every
per-identifier construction identically yield identical result
dictionaries. -/
theorem fetch_deterministic {P C J : Type} (c1 c2 : Collaborator P C J)
    (henum : c1.get_mep_urls = c2.get_mep_urls)
    (hmep : ∀ u, c1.mep u = c2.mep u) :
    fetch_authentic_mep_data c1 = fetch_authentic_mep_data c2 := by
  unfold fetch_authentic_mep_data
  rw [henum]
  cases he : c2.get_mep_urls with
  | error e => rfl
  | ok urls =>
    by_cases h0 : urls.length = 0
    · simp [h0]
    · simp [h0, fetchLoop_congr c1 c2 hmep]

/-- Same responses as `wcAllOk`, written differently: used to
instantiate determinism at two syntactically distinct collaborators. -/
def wcAllOkVariant : Collaborator Unit Unit Unit :=
  ⟨.ok ["a", "b", "c"],
   fun u => if u = u then .ok okMep else .error "never"⟩

/-- Witness for C10 at two concrete collaborators with identical
responses. -/
theorem fetch_deterministic_witness :
    fetch_authentic_mep_data wcAllOk =
      fetch_authentic_mep_data wcAllOkVariant :=
  fetch_deterministic wcAllOk wcAllOkVariant rfl
    (fun u => by simp [wcAllOk, wcAllOkVariant, okMep])

end MepWatch
